import Mathlib

/-
Shallow embedding of the tradeBot futures-trading core
(src/position.py, src/risk.py, src/utils.py, src/backtest/backtester_full.py,
src/live_runner.py, src/state_manager.py, src/strategies/mtf_breakout.py).
Machine floats are modelled as rationals; Python None as Option.
-/

/-- Trade side of a futures position ("long" / "short" strings in the source). -/
inductive Side where
  | long : Side
  | short : Side
deriving DecidableEq, Repr, Inhabited

/-- Strategy output: the strings "buy" / "sell" in the source; Python None is
modelled as Option.none at use sites. -/
inductive Sig where
  | buy : Sig
  | sell : Sig
deriving DecidableEq, Repr, Inhabited

/-- Python int() applied to a rational: truncation toward zero. -/
def truncQ (q : ℚ) : ℤ := if 0 ≤ q then ⌊q⌋ else ⌈q⌉

/-- src/position.py, PositionState dataclass.  Nullable fields are Options;
open_time is a float that defaults to None in the dataclass. -/
structure PositionState where
  symbol : String
  entry_price : ℚ
  qty : ℚ
  notional : ℚ
  side : Side
  mode : String
  open_time : Option ℚ
  stop_loss : Option ℚ
  tp1 : Option ℚ
  tp2 : Option ℚ
  peak_price : Option ℚ
  trailing_stop : Option ℚ
  pyramid_level : ℤ
deriving DecidableEq, Repr, Inhabited

/-- The dictionary produced by PositionState.to_dict / consumed by from_dict.
An outer Option models key presence (dict.get returns the stored value, even
when that stored value is None); the inner Option on nullable fields models a
stored Python None.  symbol, entry_price and qty are accessed with mandatory
indexing in from_dict, so they are not wrapped. -/
structure PosDict where
  symbol : String
  entry_price : ℚ
  qty : ℚ
  notionalKey : Option ℚ
  sideKey : Option Side
  modeKey : Option String
  open_timeKey : Option (Option ℚ)
  stop_lossKey : Option (Option ℚ)
  tp1Key : Option (Option ℚ)
  tp2Key : Option (Option ℚ)
  peak_priceKey : Option (Option ℚ)
  trailing_stopKey : Option (Option ℚ)
  pyramid_levelKey : Option ℤ
deriving DecidableEq, Repr

/-- src/position.py, PositionState.to_dict: dataclasses.asdict puts every
field in the dictionary. -/
def PositionState.to_dict (p : PositionState) : PosDict :=
  { symbol := p.symbol
    entry_price := p.entry_price
    qty := p.qty
    notionalKey := some p.notional
    sideKey := some p.side
    modeKey := some p.mode
    open_timeKey := some p.open_time
    stop_lossKey := some p.stop_loss
    tp1Key := some p.tp1
    tp2Key := some p.tp2
    peak_priceKey := some p.peak_price
    trailing_stopKey := some p.trailing_stop
    pyramid_levelKey := some p.pyramid_level }

/-- src/position.py, PositionState.from_dict.  The parameter now models
time.time(), the default used when the open_time key is absent.  float() and
int() coercions on already-numeric values are identities in this model. -/
def PositionState.from_dict (now : ℚ) (d : PosDict) : PositionState :=
  { symbol := d.symbol
    entry_price := d.entry_price
    qty := d.qty
    notional := d.notionalKey.getD (d.entry_price * d.qty)
    side := d.sideKey.getD Side.short
    mode := d.modeKey.getD "futures"
    open_time := d.open_timeKey.getD (some now)
    stop_loss := d.stop_lossKey.getD none
    tp1 := d.tp1Key.getD none
    tp2 := d.tp2Key.getD none
    peak_price := d.peak_priceKey.getD none
    trailing_stop := d.trailing_stopKey.getD none
    pyramid_level := d.pyramid_levelKey.getD 0 }

/-- src/utils.py, round_down. -/
def round_down (value step : ℚ) : ℚ :=
  if step ≤ 0 then value else ⌊value / step⌋ * step

/-- src/risk.py, RiskManager.calc_size.  min_notional and qty_step are the
constructor-loaded exchange limits (defaults 5.0 and 0.0001). -/
def calc_size (min_notional qty_step notional price : ℚ) : ℚ × ℚ :=
  if price ≤ 0 ∨ notional ≤ 0 then (0, 0)
  else
    let notional1 := max notional min_notional
    let qty := round_down (notional1 / price) qty_step
    if qty ≤ 0 then (0, 0)
    else
      let notional2 := qty * price
      if notional2 < min_notional then (0, 0) else (notional2, qty)

/-- src/risk.py, RiskManager.futures_notional_by_leverage. -/
def futures_notional_by_leverage (balance_usdt : ℚ) (leverage : ℤ) : ℚ :=
  if balance_usdt ≤ 0 ∨ leverage ≤ 0 then 0 else balance_usdt * (leverage : ℚ)

/-- src/risk.py, RiskManager.calc_futures_size_from_risk. -/
def calc_futures_size_from_risk (min_notional qty_step equity price stop_distance_pct
    risk_per_trade : ℚ) (leverage : ℤ) : ℚ × ℚ :=
  if equity ≤ 0 ∨ price ≤ 0 ∨ stop_distance_pct ≤ 0 ∨ risk_per_trade ≤ 0 ∨ leverage ≤ 0 then
    (0, 0)
  else
    let risk_amount := equity * risk_per_trade
    let notional_by_risk := risk_amount * 100 / stop_distance_pct
    let max_notional_by_lev := futures_notional_by_leverage equity leverage
    let desired_notional := min notional_by_risk max_notional_by_lev
    calc_size min_notional qty_step desired_notional price

/-- Sign of a side for PnL formulas: live_runner computes
pnl = (exit - entry) * qty * sign with sign = 1 for long, -1 for short. -/
def sideSign (s : Side) : ℚ :=
  match s with
  | Side.long => 1
  | Side.short => -1

/-- src/backtest/backtester_full.py, Backtester._close_position: full close,
returns the updated balance after fees on both legs. -/
def close_position_bt (fee_rate balance : ℚ) (pos : PositionState) (price : ℚ) : ℚ :=
  if pos.qty ≤ 0 then balance
  else
    let pnl :=
      match pos.side with
      | Side.long => (price - pos.entry_price) * pos.qty
      | Side.short => (pos.entry_price - price) * pos.qty
    let fee := (pos.entry_price * pos.qty + price * pos.qty) * fee_rate
    balance + (pnl - fee)

/-- src/backtest/backtester_full.py, Backtester._close_fraction: close
fraction of qty, return new balance and adjusted position. -/
def close_fraction_bt (fee_rate balance : ℚ) (pos : PositionState) (price fraction : ℚ) :
    ℚ × PositionState :=
  if fraction ≤ 0 ∨ 1 ≤ fraction ∨ pos.qty ≤ 0 then (balance, pos)
  else
    let qty_close := pos.qty * fraction
    if qty_close ≤ 0 then (balance, pos)
    else
      let pnl :=
        match pos.side with
        | Side.long => (price - pos.entry_price) * qty_close
        | Side.short => (pos.entry_price - price) * qty_close
      let fee := (pos.entry_price * qty_close + price * qty_close) * fee_rate
      let qty1 := pos.qty - qty_close
      let qty2 := if qty1 < 0 then 0 else qty1
      (balance + (pnl - fee), { pos with qty := qty2, notional := pos.entry_price * qty2 })

/-- src/live_runner.py, LiveRunner._close_position_live, restricted to its
effect on the position record and the order-error alert.  ok is the outcome of
the broker market order; on failure the record is kept and
notify_order_error fires (second component true). -/
def close_position_live (ok : Bool) (pos : PositionState) : Option PositionState × Bool :=
  if pos.qty ≤ 0 then (none, false)
  else if ok then (none, false)
  else (some pos, true)

/-- src/live_runner.py, LiveRunner._close_fraction_live: on broker failure the
record is returned unchanged and no order-error alert fires. -/
def close_fraction_live (ok : Bool) (pos : PositionState) (fraction : ℚ) :
    PositionState × Bool :=
  if pos.qty ≤ 0 ∨ fraction ≤ 0 ∨ 1 ≤ fraction then (pos, false)
  else
    let qty_close := pos.qty * fraction
    if qty_close ≤ 0 then (pos, false)
    else if ok then
      let qty1 := pos.qty - qty_close
      let qty2 := if qty1 < 0 then 0 else qty1
      ({ pos with qty := qty2, notional := pos.entry_price * qty2 }, false)
    else (pos, false)

/-- Hard stop-loss trigger test (step 1 of the exit sequence in both
backtester_full.run and live_runner._run_strategy_if_ready). -/
def sl_hit (pos : PositionState) (price : ℚ) : Bool :=
  match pos.stop_loss with
  | none => false
  | some sl => if pos.side = Side.long then decide (price ≤ sl) else decide (sl ≤ price)

/-- TP1 favorable-cross test: long fires when price is at or above tp1, short
when price is at or below tp1; never fires when tp1 is null. -/
def tp1_hit (pos : PositionState) (price : ℚ) : Bool :=
  match pos.tp1 with
  | none => false
  | some t => if pos.side = Side.long then decide (t ≤ price) else decide (price ≤ t)

/-- The trailing-stop assignment used after TP1 and in the trailing step: set
when null, otherwise move only upward (long ratchet). -/
def ratchet_up (cur : Option ℚ) (cand : ℚ) : Option ℚ :=
  match cur with
  | none => some cand
  | some t => if t < cand then some cand else some t

/-- Short-side ratchet: set when null, otherwise move only downward. -/
def ratchet_down (cur : Option ℚ) (cand : ℚ) : Option ℚ :=
  match cur with
  | none => some cand
  | some t => if cand < t then some cand else some t

/-- TP1 step of the backtest exit sequence (backtester_full.run, step 2):
close half, move stop to breakeven, start or tighten the trail, clear tp1. -/
def tp1_step_bt (fee_rate ts_mult atr price balance : ℚ) (pos : PositionState) :
    ℚ × PositionState :=
  if tp1_hit pos price then
    let r := close_fraction_bt fee_rate balance pos price (1 / 2)
    let cand := if pos.side = Side.long then price - ts_mult * atr else price + ts_mult * atr
    let tr :=
      if pos.side = Side.long then ratchet_up r.2.trailing_stop cand
      else ratchet_down r.2.trailing_stop cand
    (r.1, { r.2 with stop_loss := some r.2.entry_price, trailing_stop := tr, tp1 := none })
  else (balance, pos)

/-- TP1 step of the live exit sequence (live_runner._run_strategy_if_ready):
same as the backtest step but gated on qty > 0, with the broker call outcome
ok; the caller mutates stop_loss / trailing_stop / tp1 whether or not the
partial-close order succeeded.  Second component: whether an order call was
made. -/
def tp1_step_live (ok : Bool) (ts_mult atr price : ℚ) (pos : PositionState) :
    PositionState × Bool :=
  if 0 < pos.qty ∧ tp1_hit pos price then
    let p := (close_fraction_live ok pos (1 / 2)).1
    let cand := if pos.side = Side.long then price - ts_mult * atr else price + ts_mult * atr
    let tr :=
      if pos.side = Side.long then ratchet_up p.trailing_stop cand
      else ratchet_down p.trailing_stop cand
    ({ p with stop_loss := some p.entry_price, trailing_stop := tr, tp1 := none }, true)
  else (pos, false)

/-- Trailing-stop ratchet of the exit sequence (step 3): recompute candidate
and move the stored trail only in the favorable direction. -/
def trail_ratchet (ts_mult atr price : ℚ) (pos : PositionState) : PositionState :=
  match pos.trailing_stop with
  | none => pos
  | some t =>
    if pos.side = Side.long then
      let cand := price - ts_mult * atr
      { pos with trailing_stop := some (if t < cand then cand else t) }
    else
      let cand := price + ts_mult * atr
      { pos with trailing_stop := some (if cand < t then cand else t) }

/-- Trailing-stop crossing test, evaluated against the possibly just-ratcheted
level. -/
def trail_crossed (pos : PositionState) (price : ℚ) : Bool :=
  match pos.trailing_stop with
  | none => false
  | some t => if pos.side = Side.long then decide (price ≤ t) else decide (t ≤ price)

/-- Position age in bars: int(i - pos.open_time); the source catches the
exception raised when open_time is None and uses 0. -/
def age_bars (i : ℤ) (pos : PositionState) : ℤ :=
  match pos.open_time with
  | some t => truncQ ((i : ℚ) - t)
  | none => 0

/-- Reverse-signal test (step 4/5 of the exit sequence): a sell signal closes
a long, a buy signal closes a short. -/
def reverse_hit (pos : PositionState) (sig : Option Sig) : Bool :=
  decide ((pos.side = Side.long ∧ sig = some Sig.sell) ∨
    (pos.side = Side.short ∧ sig = some Sig.buy))

/-- One per-position iteration of the position-management part of
backtester_full.run (lines: hard SL, TP1, trailing, MTF time-stop, reverse
signal).  strategy_mtf models STRATEGY_NAME being "mtf_breakout" or "mtf".
Returns the new balance and the surviving position (none when fully closed).
The atr ≤ 0 guard mirrors the per-symbol skip in the loop. -/
def tick_bt (fee_rate ts_mult : ℚ) (mtf_max_bars : ℤ) (strategy_mtf : Bool) (i : ℤ)
    (price atr : ℚ) (sig : Option Sig) (balance : ℚ) (pos0 : PositionState) :
    ℚ × Option PositionState :=
  if atr ≤ 0 then (balance, some pos0)
  else if sl_hit pos0 price then (close_position_bt fee_rate balance pos0 price, none)
  else
    let r1 := tp1_step_bt fee_rate ts_mult atr price balance pos0
    let pos2 := trail_ratchet ts_mult atr price r1.2
    if trail_crossed pos2 price then (close_position_bt fee_rate r1.1 pos2 price, none)
    else if 0 < mtf_max_bars ∧ strategy_mtf ∧ mtf_max_bars ≤ age_bars i pos2 then
      (close_position_bt fee_rate r1.1 pos2 price, none)
    else if reverse_hit pos2 sig then (close_position_bt fee_rate r1.1 pos2 price, none)
    else (r1.1, some pos2)

/-- Steps 4 and 5 of the live exit sequence (time-stop, then reverse
signal); the live time-stop tests only MTF_MAX_BARS_IN_POSITION > 0, with no
strategy-name check.  ok is the broker outcome for whichever close fires. -/
def last_steps_live (bars i : ℤ) (sig : Option Sig) (ok : Bool) (p : PositionState) :
    Option PositionState :=
  if 0 < bars ∧ bars ≤ age_bars i p then (close_position_live ok p).1
  else if reverse_hit p sig then (close_position_live ok p).1
  else some p

/-- Step 3 of the live exit sequence (trailing, gated on a non-null trail and
qty > 0) followed by steps 4 and 5. -/
def trail_steps_live (ts_mult : ℚ) (bars i : ℤ) (price atr : ℚ) (sig : Option Sig)
    (ok : Bool) (p : PositionState) : Option PositionState :=
  if p.trailing_stop ≠ none ∧ 0 < p.qty then
    if trail_crossed (trail_ratchet ts_mult atr price p) price then
      (close_position_live ok (trail_ratchet ts_mult atr price p)).1
    else last_steps_live bars i sig ok (trail_ratchet ts_mult atr price p)
  else last_steps_live bars i sig ok p

/-- One per-candle iteration of the position-management part of
live_runner._run_strategy_if_ready for an open position.  oks is the sequence
of broker market-order outcomes consumed by the successive order calls of this
tick (true = filled); i = len(df_mtf) - 1.  Returns the surviving position
record (none when fully closed and removed); a failed close keeps the record,
a failed TP1 partial close keeps the quantity but the caller still moves the
stops and clears tp1. -/
def tick_live (ts_mult : ℚ) (mtf_max_bars : ℤ) (oks : List Bool) (i : ℤ)
    (price atr : ℚ) (sig : Option Sig) (pos0 : PositionState) : Option PositionState :=
  if price ≤ 0 ∨ atr ≤ 0 then some pos0
  else if sl_hit pos0 price then (close_position_live (oks.headD true) pos0).1
  else
    let r1 := tp1_step_live (oks.headD true) ts_mult atr price pos0
    trail_steps_live ts_mult mtf_max_bars i price atr sig
      ((if r1.2 then oks.tail else oks).headD true) r1.1

/-- Effective open-position cap of the entry phase: min of the global and the
MTF-specific cap when the MTF strategy is configured, else the global cap
(backtester_full.run and live_runner share this computation). -/
def eff_cap (strategy_mtf : Bool) (max_positions mtf_max_pos : ℤ) : ℤ :=
  if strategy_mtf then min max_positions mtf_max_pos else max_positions

/-- The per-symbol entry loop of backtester_full.run: wants lists, per symbol
in order, whether that symbol would open a position if allowed (flat, tradable
signal, positive size).  After each open the source recomputes
can_open_more with the GLOBAL cap max_positions. -/
def open_loop (max_positions : ℤ) : List Bool → Bool → ℤ → ℤ
  | [], _, count => count
  | b :: rest, can, count =>
    if ¬ can then count
    else if b then open_loop max_positions rest (decide (count + 1 < max_positions)) (count + 1)
    else open_loop max_positions rest can count

/-- Entry phase of one backtest bar: initial gate count < effective cap, then
the per-symbol loop. -/
def entry_phase (strategy_mtf : Bool) (max_positions mtf_max_pos count : ℤ)
    (wants : List Bool) : ℤ :=
  open_loop max_positions wants
    (decide (count < eff_cap strategy_mtf max_positions mtf_max_pos)) count

/-- The drawdown percentage as computed by the hard-drawdown guard of
live_runner._run_strategy_if_ready: it is left at 0 unless a peak is recorded,
the threshold is positive, and equity as well as the peak are positive. -/
def dd_pct_calc (hard_dd : ℚ) (peak : Option ℚ) (equity : ℚ) : ℚ :=
  match peak with
  | none => 0
  | some pv =>
    if 0 < hard_dd ∧ 0 < equity ∧ 0 < pv then max 0 ((pv - equity) / pv * 100) else 0

/-- One evaluation of the hard-drawdown guard: sets the sticky
trading-disabled flag when the measured drawdown reaches the threshold. -/
def guard_step (hard_dd : ℚ) (peak : Option ℚ) (equity : ℚ) (disabled : Bool) : Bool :=
  if 0 < hard_dd ∧ hard_dd ≤ dd_pct_calc hard_dd peak equity then true else disabled

/-- The guard iterated over a run: one (peak, equity) observation per
processed candle. -/
def run_guard (hard_dd : ℚ) (obs : List (Option ℚ × ℚ)) (disabled : Bool) : Bool :=
  obs.foldl (fun d pe => guard_step hard_dd pe.1 pe.2 d) disabled

/-- Trade-rate limiter of the live entry path: proceed only while the count of
entries in the rolling hour is below the cap (cap 0 disables the check). -/
def rate_limit_ok (max_trades_per_hour : ℤ) (now : ℚ) (stamps : List ℚ) : Bool :=
  if 0 < max_trades_per_hour then
    decide (((stamps.filter fun t => now - t < 3600).length : ℤ) < max_trades_per_hour)
  else true

/-- Re-entry cooldown of the live entry path: reject when the previous entry
for the symbol was less than min_reopen seconds ago. -/
def cooldown_ok (min_reopen : ℤ) (now : ℚ) (last_open : Option ℚ) : Bool :=
  if 0 < min_reopen then
    match last_open with
    | none => true
    | some t => decide (¬ (now - t < (min_reopen : ℚ)))
  else true

/-- The gate sequence of the live entry path (live_runner, steps after exit
management): tradable signal, risk guard, rate limiter, cooldown, position
cap, positive equity.  True means the runner proceeds to sizing and order
placement. -/
def entry_allowed (sig : Option Sig) (trading_disabled : Bool) (max_trades_per_hour : ℤ)
    (now : ℚ) (stamps : List ℚ) (min_reopen : ℤ) (last_open : Option ℚ)
    (open_count max_positions mtf_max_pos : ℤ) (strategy_mtf : Bool) (equity : ℚ) : Bool :=
  decide (sig = some Sig.buy ∨ sig = some Sig.sell) &&
  !trading_disabled &&
  rate_limit_ok max_trades_per_hour now stamps &&
  cooldown_ok min_reopen now last_open &&
  decide (open_count < eff_cap strategy_mtf max_positions mtf_max_pos) &&
  decide (0 < equity)

/-- Realized PnL credited by live_runner._close_position_live through
StateManager.add_realized_pnl: gross PnL of the closed quantity, no fee
term. -/
def live_close_realized_pnl (pos : PositionState) (price : ℚ) : ℚ :=
  (price - pos.entry_price) * pos.qty * sideSign pos.side

/-- One row of the MTF dataframe consumed by
src/strategies/mtf_breakout.py MTFBreakoutStrategy.signal: LTF candle fields
plus LTF indicators and the HTF columns merged in by the runner.  Missing or
NaN values short-circuit the source to None before any filter; the rational
model covers the windows where all required values are present. -/
structure Bar where
  high : ℚ
  low : ℚ
  close : ℚ
  volume : ℚ
  rsi : ℚ
  atr : ℚ
  htf_ema20 : ℚ
  htf_ema50 : ℚ
  htf_ema200 : ℚ
  htf_atr : ℚ
  htf_adx : ℚ
  htf_rsi : ℚ
  htf_sma_trend : ℚ
deriving DecidableEq, Repr, Inhabited

/-- The configuration constants read by MTFBreakoutStrategy.signal through
getattr(cfg, name, default); fields follow the config.py names. -/
structure MTFConfig where
  anti_chop_min_atr_pct : ℚ
  breakout_adx_min : ℚ
  htf_volatile_atr_pct : ℚ
  htf_volatile_drift_pct : ℚ
  htf_volatile_adx_max : ℚ
  htf_drift_lookback_bars : ℕ
  mtf_atr_super_high_pct : ℚ
  mtf_disable_volatile_flat : Bool
  mtf_drift_lookback_bars : ℕ
  mtf_drift_min_pct : ℚ
  mtf_drift_strong_trend_pct : ℚ
  mtf_drift_adaptive_enabled : Bool
  mtf_drift_min_loosen_factor : ℚ
  mtf_strong_trend_adx_margin : ℚ
  mtf_ltf_lookback : ℕ
  mtf_atr_low_vol_pct : ℚ
  mtf_atr_high_vol_pct : ℚ
  mtf_lookback_min : ℕ
  mtf_lookback_max : ℕ
  breakout_buffer_pct : ℚ
  breakout_volume_mult : ℚ
  ltf_atr_min_pct : ℚ
  ltf_micro_atr_pct : ℚ
  ltf_slope_lookback : ℕ
  ltf_slope_min_abs : ℚ
  ltf_volatile_slope_factor : ℚ
  mtf_rsi_long_min : ℚ
  mtf_rsi_long_max : ℚ
  mtf_rsi_short_min : ℚ
  mtf_rsi_short_max : ℚ
  mtf_rsi_long_tighten : ℚ
  mtf_rsi_short_tighten : ℚ

/-- df.iloc[-1], the last row of the window. -/
def lastBar (df : List Bar) : Bar := (df.getLast?).getD default

/-- close_series.iloc[k] for a non-negative index. -/
def closeAt (df : List Bar) (k : ℕ) : ℚ := ((df[k]?).map Bar.close).getD 0

/-- HTF regime classification (strict EMA ordering, step 1 of signal). -/
inductive Regime where
  | bull : Regime
  | bear : Regime
  | flat : Regime
deriving DecidableEq, Repr

/-- Regime from the HTF EMA columns of the last row: bull iff
EMA20 > EMA50 > EMA200, bear iff EMA20 < EMA50 < EMA200, else no regime. -/
def regime (df : List Bar) : Regime :=
  let l := lastBar df
  if l.htf_ema50 < l.htf_ema20 ∧ l.htf_ema200 < l.htf_ema50 then Regime.bull
  else if l.htf_ema20 < l.htf_ema50 ∧ l.htf_ema50 < l.htf_ema200 then Regime.bear
  else Regime.flat

/-- HTF relative ATR: atr_h / close of the last row. -/
def atr_pct_h (df : List Bar) : ℚ := (lastBar df).htf_atr / (lastBar df).close

/-- The HTF-like drift over HTF_DRIFT_LOOKBACK_BARS M15 closes. -/
def drift_h (cfg : MTFConfig) (df : List Bar) : ℚ :=
  if cfg.htf_drift_lookback_bars + 1 < df.length then
    let lastP := closeAt df (df.length - 1)
    let prevP := closeAt df (df.length - cfg.htf_drift_lookback_bars - 1)
    if 0 < lastP ∧ 0 < prevP then |lastP - prevP| / lastP else 0
  else 0

/-- The daily drift over MTF_DRIFT_LOOKBACK_BARS closes. -/
def drift (cfg : MTFConfig) (df : List Bar) : ℚ :=
  if cfg.mtf_drift_lookback_bars + 1 < df.length then
    let lastP := closeAt df (df.length - 1)
    let prevP := closeAt df (df.length - cfg.mtf_drift_lookback_bars - 1)
    if 0 < lastP ∧ 0 < prevP then |lastP - prevP| / lastP else 0
  else 0

/-- Adaptive minimum-drift threshold: loosened in a strong, non-extreme
trend when MTF_DRIFT_ADAPTIVE_ENABLED. -/
def drift_min_eff (cfg : MTFConfig) (df : List Bar) : ℚ :=
  if cfg.mtf_drift_adaptive_enabled then
    if cfg.breakout_adx_min + cfg.mtf_strong_trend_adx_margin ≤ (lastBar df).htf_adx ∧
        cfg.anti_chop_min_atr_pct * (3 / 2) ≤ atr_pct_h df ∧
        atr_pct_h df ≤ cfg.htf_volatile_atr_pct then
      cfg.mtf_drift_min_pct * cfg.mtf_drift_min_loosen_factor
    else cfg.mtf_drift_min_pct
  else cfg.mtf_drift_min_pct

/-- Python int(n * q) for a natural n and non-negative factor q. -/
def scaleNat (n : ℕ) (q : ℚ) : ℕ := (truncQ ((n : ℚ) * q)).toNat

/-- Dynamic LTF breakout lookback: volatility and drift adaptation with
clamping to the configured bounds. -/
def lookback_ltf (cfg : MTFConfig) (df : List Bar) : ℕ :=
  let lb1 :=
    if atr_pct_h df < cfg.mtf_atr_low_vol_pct then
      min cfg.mtf_lookback_max (scaleNat cfg.mtf_ltf_lookback (13 / 10))
    else if cfg.mtf_atr_high_vol_pct < atr_pct_h df then
      max cfg.mtf_lookback_min (scaleNat cfg.mtf_ltf_lookback (7 / 10))
    else cfg.mtf_ltf_lookback
  if cfg.mtf_drift_min_pct < drift cfg df ∧ drift cfg df < cfg.mtf_drift_strong_trend_pct then
    min cfg.mtf_lookback_max (scaleNat lb1 (6 / 5))
  else if cfg.mtf_drift_strong_trend_pct ≤ drift cfg df then
    max cfg.mtf_lookback_min (scaleNat lb1 (17 / 20))
  else lb1

/-- recent = df.iloc[-lookback_ltf-1:-1], the lookback_ltf bars preceding the
last bar. -/
def recentBars (cfg : MTFConfig) (df : List Bar) : List Bar :=
  (df.drop (df.length - lookback_ltf cfg df - 1)).dropLast

/-- range_high = recent["high"].max() (0 stands for the NaN of an empty
slice, which can never produce a signal). -/
def range_high (cfg : MTFConfig) (df : List Bar) : ℚ :=
  (((recentBars cfg df).map Bar.high).max?).getD 0

/-- range_low = recent["low"].min(). -/
def range_low (cfg : MTFConfig) (df : List Bar) : ℚ :=
  (((recentBars cfg df).map Bar.low).min?).getD 0

/-- long_trigger = range_high * (1 + BREAKOUT_BUFFER_PCT). -/
def long_trigger (cfg : MTFConfig) (df : List Bar) : ℚ :=
  range_high cfg df * (1 + cfg.breakout_buffer_pct)

/-- short_trigger = range_low * (1 - BREAKOUT_BUFFER_PCT). -/
def short_trigger (cfg : MTFConfig) (df : List Bar) : ℚ :=
  range_low cfg df * (1 - cfg.breakout_buffer_pct)

/-- vol_ma = recent["volume"].mean(). -/
def vol_ma (cfg : MTFConfig) (df : List Bar) : ℚ :=
  ((recentBars cfg df).map Bar.volume).sum / ((recentBars cfg df).length : ℚ)

/-- slope_abs over LTF_SLOPE_LOOKBACK closes; None when history is too short
or the last close is not positive. -/
def slope_abs? (cfg : MTFConfig) (df : List Bar) : Option ℚ :=
  if cfg.ltf_slope_lookback + 1 < df.length then
    let lastP := closeAt df (df.length - 1)
    let prevP := closeAt df (df.length - cfg.ltf_slope_lookback - 1)
    if 0 < lastP then some (|lastP - prevP| / lastP) else none
  else none

/-- Effective lower RSI bound for longs: tightened under weak drift, loosened
(never below 40) under very strong drift. -/
def rsi_long_min_eff (cfg : MTFConfig) (df : List Bar) : ℚ :=
  if cfg.mtf_drift_min_pct < drift cfg df ∧ drift cfg df < cfg.mtf_drift_strong_trend_pct then
    cfg.mtf_rsi_long_min + cfg.mtf_rsi_long_tighten
  else if cfg.mtf_drift_strong_trend_pct ≤ drift cfg df then
    max 40 (cfg.mtf_rsi_long_min - cfg.mtf_rsi_long_tighten * (1 / 2))
  else cfg.mtf_rsi_long_min

/-- Effective upper RSI bound for shorts: tightened under weak drift,
loosened (never above 60) under very strong drift. -/
def rsi_short_max_eff (cfg : MTFConfig) (df : List Bar) : ℚ :=
  if cfg.mtf_drift_min_pct < drift cfg df ∧ drift cfg df < cfg.mtf_drift_strong_trend_pct then
    cfg.mtf_rsi_short_max - cfg.mtf_rsi_short_tighten
  else if cfg.mtf_drift_strong_trend_pct ≤ drift cfg df then
    min 60 (cfg.mtf_rsi_short_max + cfg.mtf_rsi_short_tighten * (1 / 2))
  else cfg.mtf_rsi_short_max

/-- The volatile-sawtooth rejection of step 3: high LTF ATR with a near-zero
slope. -/
def sawtooth_reject (cfg : MTFConfig) (df : List Bar) : Bool :=
  match slope_abs? cfg df with
  | some s =>
    decide (cfg.ltf_micro_atr_pct < (lastBar df).atr / (lastBar df).close) &&
    decide (s < cfg.ltf_slope_min_abs * cfg.ltf_volatile_slope_factor)
  | none => false

/-- The tail of MTFBreakoutStrategy.signal after the breakout range is
available: volume filter, LTF ATR floor, sawtooth filter, then the final
regime / trigger / RSI classification. -/
def mtf_final (cfg : MTFConfig) (df : List Bar) : Option Sig :=
  if 0 < vol_ma cfg df ∧ (lastBar df).volume < vol_ma cfg df * cfg.breakout_volume_mult then
    none
  else if (lastBar df).close ≤ 0 ∨ (lastBar df).atr ≤ 0 then none
  else if (lastBar df).atr / (lastBar df).close < cfg.ltf_atr_min_pct then none
  else if sawtooth_reject cfg df then none
  else if regime df = Regime.bull ∧ long_trigger cfg df < (lastBar df).close ∧
      rsi_long_min_eff cfg df ≤ (lastBar df).rsi ∧
      (lastBar df).rsi ≤ cfg.mtf_rsi_long_max then some Sig.buy
  else if regime df = Regime.bear ∧ (lastBar df).close < short_trigger cfg df ∧
      cfg.mtf_rsi_short_min ≤ (lastBar df).rsi ∧
      (lastBar df).rsi ≤ rsi_short_max_eff cfg df then some Sig.sell
  else none

/-- src/strategies/mtf_breakout.py, MTFBreakoutStrategy.signal: history and
HTF filters, the breakout range (whose pandas max/min over an empty slice is
the NaN that can never produce a signal, modelled by the none arm), then the
final stage. -/
def mtf_signal (cfg : MTFConfig) (df : List Bar) : Option Sig :=
  if df.length < 100 then none
  else if regime df = Regime.flat then none
  else if (lastBar df).close ≤ 0 ∨ (lastBar df).htf_atr ≤ 0 then none
  else if atr_pct_h df < cfg.anti_chop_min_atr_pct then none
  else if (lastBar df).htf_adx < cfg.breakout_adx_min then none
  else if cfg.htf_volatile_atr_pct < atr_pct_h df ∧
      drift_h cfg df < cfg.htf_volatile_drift_pct ∧
      (lastBar df).htf_adx < cfg.htf_volatile_adx_max then none
  else if cfg.mtf_disable_volatile_flat ∧ cfg.mtf_atr_super_high_pct < atr_pct_h df then none
  else if drift cfg df < drift_min_eff cfg df then none
  else if df.length < lookback_ltf cfg df + 2 then none
  else
    match ((recentBars cfg df).map Bar.high).max?, ((recentBars cfg df).map Bar.low).min? with
    | some _, some _ => mtf_final cfg df
    | _, _ => none

/-- Conjunction of the filter steps of MTFBreakoutStrategy.signal that
precede the final regime/trigger/RSI classification (history length, HTF
volatility, trend strength, volatile-trendless, volatile flat, drift,
breakout-window length and non-emptiness, volume, LTF ATR, sawtooth).  A
non-empty recent window stands for the NaN-free range computation. -/
def mtf_filters_pass (cfg : MTFConfig) (df : List Bar) : Prop :=
  ¬ (df.length < 100) ∧
  ¬ ((lastBar df).close ≤ 0 ∨ (lastBar df).htf_atr ≤ 0) ∧
  ¬ (atr_pct_h df < cfg.anti_chop_min_atr_pct) ∧
  ¬ ((lastBar df).htf_adx < cfg.breakout_adx_min) ∧
  ¬ (cfg.htf_volatile_atr_pct < atr_pct_h df ∧
      drift_h cfg df < cfg.htf_volatile_drift_pct ∧
      (lastBar df).htf_adx < cfg.htf_volatile_adx_max) ∧
  ¬ (cfg.mtf_disable_volatile_flat ∧ cfg.mtf_atr_super_high_pct < atr_pct_h df) ∧
  ¬ (drift cfg df < drift_min_eff cfg df) ∧
  ¬ (df.length < lookback_ltf cfg df + 2) ∧
  recentBars cfg df ≠ [] ∧
  ¬ (0 < vol_ma cfg df ∧ (lastBar df).volume < vol_ma cfg df * cfg.breakout_volume_mult) ∧
  ¬ ((lastBar df).close ≤ 0 ∨ (lastBar df).atr ≤ 0) ∧
  ¬ ((lastBar df).atr / (lastBar df).close < cfg.ltf_atr_min_pct) ∧
  sawtooth_reject cfg df = false

/-- round_down never rounds up. -/
theorem round_down_le (value step : ℚ) : round_down value step ≤ value := by
  unfold round_down
  split
  · exact le_refl value
  · rename_i h
    have hs : 0 < step := lt_of_not_ge h
    calc (⌊value / step⌋ : ℚ) * step ≤ (value / step) * step :=
          mul_le_mul_of_nonneg_right (Int.floor_le _) hs.le
      _ = value := div_mul_cancel₀ value (ne_of_gt hs)

/-- calc_size either rejects or returns a notional bounded by the input
notional raised to the exchange minimum. -/
theorem calc_size_notional_le (min_notional qty_step notional price : ℚ)
    (hp : 0 < price) :
    calc_size min_notional qty_step notional price = (0, 0) ∨
      (calc_size min_notional qty_step notional price).1 ≤ max notional min_notional := by
  simp only [calc_size]
  split
  · exact Or.inl rfl
  · split
    · exact Or.inl rfl
    · split
      · exact Or.inl rfl
      · refine Or.inr ?_
        have h1 : round_down (max notional min_notional / price) qty_step ≤
            max notional min_notional / price := round_down_le _ _
        calc round_down (max notional min_notional / price) qty_step * price
            ≤ (max notional min_notional / price) * price :=
              mul_le_mul_of_nonneg_right h1 hp.le
          _ = max notional min_notional := div_mul_cancel₀ _ (ne_of_gt hp)

/-- C2 counterexample: with the default exchange limits (MIN_NOTIONAL_USDT 5,
QTY_STEP 0.0001), equity 1, price 1, stop distance 100 percent, risk 1
percent, leverage 1, the desired notional is 0.01 yet the sizer returns
notional 5: the trade is force-upsized to the exchange minimum, not rejected,
and the returned notional exceeds the desired notional. -/
theorem risk_sizer_upsizes_to_min_notional_cex :
    calc_futures_size_from_risk 5 (1 / 10000) 1 1 100 (1 / 100) 1 = (5, 5) ∧
    min ((1 : ℚ) * (1 / 100) * 100 / 100) (1 * ((1 : ℤ) : ℚ)) = 1 / 100 ∧
    ¬ ((calc_futures_size_from_risk 5 (1 / 10000) 1 1 100 (1 / 100) 1).1 ≤ 1 / 100) := by
  refine ⟨?_, by norm_num, ?_⟩
  · norm_num [calc_futures_size_from_risk, calc_size, round_down,
      futures_notional_by_leverage]
  · norm_num [calc_futures_size_from_risk, calc_size, round_down,
      futures_notional_by_leverage]

/-- C2 amended: calc_futures_size_from_risk first raises the desired notional
min(risk-implied, leverage cap) to the exchange minimum, so it returns either
(0, 0) or a pair whose notional is at most max(desired, MIN_NOTIONAL); the
bound by the desired notional alone fails when the desired notional is below
the exchange minimum, in which case the trade is force-upsized rather than
rejected. -/
theorem calc_futures_size_notional_bound
    (min_notional qty_step equity price stop_distance_pct risk_per_trade : ℚ)
    (leverage : ℤ) (hp : 0 < price) :
    calc_futures_size_from_risk min_notional qty_step equity price stop_distance_pct
        risk_per_trade leverage = (0, 0) ∨
      (calc_futures_size_from_risk min_notional qty_step equity price stop_distance_pct
          risk_per_trade leverage).1 ≤
        max (min (equity * risk_per_trade * 100 / stop_distance_pct)
          (equity * (leverage : ℚ))) min_notional := by
  simp only [calc_futures_size_from_risk]
  split
  · exact Or.inl rfl
  · rename_i hg
    push_neg at hg
    have hlev : futures_notional_by_leverage equity leverage = equity * (leverage : ℚ) := by
      unfold futures_notional_by_leverage
      rw [if_neg]
      push_neg
      exact ⟨hg.1, hg.2.2.2.2⟩
    rw [hlev]
    exact calc_size_notional_le _ _ _ _ hp

/-- C2 amended witness at the counterexample input. -/
theorem calc_futures_size_notional_bound_witness :
    (0 : ℚ) < 1 ∧
      (calc_futures_size_from_risk 5 (1 / 10000) 1 1 100 (1 / 100) 1 = (0, 0) ∨
        (calc_futures_size_from_risk 5 (1 / 10000) 1 1 100 (1 / 100) 1).1 ≤
          max (min ((1 : ℚ) * (1 / 100) * 100 / 100) (1 * ((1 : ℤ) : ℚ))) 5) :=
  ⟨by norm_num, calc_futures_size_notional_bound 5 (1 / 10000) 1 1 100 (1 / 100) 1 (by norm_num)⟩

/-- C10: PositionState serialization round-trip: reloading the dictionary
written by to_dict reconstructs the identical position, including the
nullable stop_loss, tp1, tp2, peak_price and trailing_stop fields (every key
is present in the dictionary, so none of the from_dict defaults fire). -/
theorem position_dict_roundtrip (now : ℚ) (p : PositionState) :
    PositionState.from_dict now (PositionState.to_dict p) = p := rfl

/-- C3 counterexample: closing a long of qty 1 opened at 100 at exit 110 with
the configured FUTURES_FEE_RATE 0.0004 credits 10 to the live realized-PnL
store (gross PnL, no fee term), which differs from the claimed
(X - E) * q - (E * q + X * q) * f = 9.916: the fee formula does not hold for
the live runner's realized-PnL accounting. -/
theorem live_realized_pnl_ignores_fees_cex :
    live_close_realized_pnl
      { symbol := "BTCUSDT", entry_price := 100, qty := 1, notional := 100,
        side := Side.long, mode := "futures", open_time := some 0, stop_loss := none,
        tp1 := none, tp2 := none, peak_price := some 100, trailing_stop := none,
        pyramid_level := 0 } 110 = 10 ∧
    ((10 : ℚ) ≠ (110 - 100) * 1 - (100 * 1 + 110 * 1) * (1 / 2500)) := by
  constructor
  · norm_num [live_close_realized_pnl, sideSign]
  · norm_num

/-- C3 amended: the backtest ledger credits, for every full or partial close,
exactly the signed PnL of the closed quantity minus the fee on both legs of
that quantity; the live runner's realized-PnL accounting credits the gross
signed PnL of the closed quantity with no fee deduction. -/
theorem close_pnl_fee_accounting (fee_rate balance price fraction : ℚ)
    (pos : PositionState) (hq : 0 < pos.qty) (hf0 : 0 < fraction) (hf1 : fraction < 1) :
    close_position_bt fee_rate balance pos price =
      balance + (sideSign pos.side * (price - pos.entry_price) * pos.qty -
        (pos.entry_price * pos.qty + price * pos.qty) * fee_rate) ∧
    (close_fraction_bt fee_rate balance pos price fraction).1 =
      balance + (sideSign pos.side * (price - pos.entry_price) * (pos.qty * fraction) -
        (pos.entry_price * (pos.qty * fraction) + price * (pos.qty * fraction)) * fee_rate) ∧
    live_close_realized_pnl pos price =
      sideSign pos.side * (price - pos.entry_price) * pos.qty := by
  have hq' : ¬ pos.qty ≤ 0 := not_le.mpr hq
  have hqc : ¬ pos.qty * fraction ≤ 0 := not_le.mpr (mul_pos hq hf0)
  have hguard : ¬ (fraction ≤ 0 ∨ 1 ≤ fraction ∨ pos.qty ≤ 0) := by
    push_neg
    exact ⟨hf0, hf1, hq⟩
  refine ⟨?_, ?_, ?_⟩
  · simp only [close_position_bt, if_neg hq']
    cases pos.side <;> simp [sideSign]
  · simp only [close_fraction_bt, if_neg hguard, if_neg hqc]
    cases pos.side <;> simp [sideSign]
  · unfold live_close_realized_pnl
    ring

/-- C3 amended witness: long qty 1, entry 100, exit 110, fee 0.0004,
fraction one half. -/
theorem close_pnl_fee_accounting_witness :
    (0 : ℚ) < 1 ∧ (0 : ℚ) < 1 / 2 ∧ (1 : ℚ) / 2 < 1 ∧
    (close_position_bt (1 / 2500) 0
        { symbol := "BTCUSDT", entry_price := 100, qty := 1, notional := 100,
          side := Side.long, mode := "futures", open_time := some 0, stop_loss := none,
          tp1 := none, tp2 := none, peak_price := some 100, trailing_stop := none,
          pyramid_level := 0 } 110 =
      0 + (sideSign Side.long * (110 - 100) * 1 - (100 * 1 + 110 * 1) * (1 / 2500)) ∧
    (close_fraction_bt (1 / 2500) 0
        { symbol := "BTCUSDT", entry_price := 100, qty := 1, notional := 100,
          side := Side.long, mode := "futures", open_time := some 0, stop_loss := none,
          tp1 := none, tp2 := none, peak_price := some 100, trailing_stop := none,
          pyramid_level := 0 } 110 (1 / 2)).1 =
      0 + (sideSign Side.long * (110 - 100) * (1 * (1 / 2)) -
        (100 * (1 * (1 / 2)) + 110 * (1 * (1 / 2))) * (1 / 2500)) ∧
    live_close_realized_pnl
        { symbol := "BTCUSDT", entry_price := 100, qty := 1, notional := 100,
          side := Side.long, mode := "futures", open_time := some 0, stop_loss := none,
          tp1 := none, tp2 := none, peak_price := some 100, trailing_stop := none,
          pyramid_level := 0 } 110 =
      sideSign Side.long * (110 - 100) * 1) :=
  ⟨by norm_num, by norm_num, by norm_num,
    close_pnl_fee_accounting (1 / 2500) 0 110 (1 / 2) _ (by norm_num) (by norm_num)
      (by norm_num)⟩

/-- The entry loop returns the count unchanged once the gate is closed. -/
theorem open_loop_closed_gate (max_positions : ℤ) (wants : List Bool) (count : ℤ) :
    open_loop max_positions wants false count = count := by
  cases wants <;> simp [open_loop]

/-- Loop invariant of the entry loop: if the count is within the global cap
and the gate being open implies strict room under the global cap, the final
count stays within the global cap. -/
theorem open_loop_le (max_positions : ℤ) (wants : List Bool) :
    ∀ (can : Bool) (count : ℤ), count ≤ max_positions →
      (can = true → count < max_positions) →
      open_loop max_positions wants can count ≤ max_positions := by
  induction wants with
  | nil => intro can count hc _; simpa [open_loop] using hc
  | cons b rest ih =>
    intro can count hc hcan
    cases can with
    | false => simpa [open_loop] using hc
    | true =>
      cases b with
      | true =>
        have h1 : count + 1 ≤ max_positions := by
          have := hcan rfl
          omega
        simpa [open_loop] using
          ih (decide (count + 1 < max_positions)) (count + 1) h1
            (fun h => of_decide_eq_true h)
      | false => simpa [open_loop] using ih true count hc hcan

/-- The effective cap never exceeds the global cap. -/
theorem eff_cap_le (strategy_mtf : Bool) (max_positions mtf_max_pos : ℤ) :
    eff_cap strategy_mtf max_positions mtf_max_pos ≤ max_positions := by
  unfold eff_cap
  split
  · exact min_le_left _ _
  · exact le_refl _

/-- C1 counterexample: MTF strategy, global cap 3, MTF cap 1, no open
positions, two symbols with entry signals in the same bar: the effective cap
is 1 but the loop opens 2 positions, because after the first open the gate is
recomputed with the global cap instead of the effective cap. -/
theorem cap_recompute_uses_global_cap_cex :
    entry_phase true 3 1 0 [true, true] = 2 ∧
    eff_cap true 3 1 = 1 ∧
    ¬ (entry_phase true 3 1 0 [true, true] ≤ eff_cap true 3 1) := by
  refine ⟨?_, ?_, ?_⟩ <;> decide

/-- C1 amended: the initial gate of the entry loop uses the effective cap
(lesser of the global and the MTF cap) - with the count at or above the
effective cap no position is opened - but the gate recomputed after each open
uses the global MAX_OPEN_POSITIONS cap, so within one bar the count may
exceed the effective cap; it never exceeds the global cap. -/
theorem entry_loop_respects_global_cap (strategy_mtf : Bool)
    (max_positions mtf_max_pos count : ℤ) (wants : List Bool)
    (hc : count ≤ max_positions) :
    entry_phase strategy_mtf max_positions mtf_max_pos count wants ≤ max_positions ∧
    (eff_cap strategy_mtf max_positions mtf_max_pos ≤ count →
      entry_phase strategy_mtf max_positions mtf_max_pos count wants = count) := by
  constructor
  · unfold entry_phase
    refine open_loop_le _ _ _ _ hc ?_
    intro h
    exact lt_of_lt_of_le (of_decide_eq_true h) (eff_cap_le _ _ _)
  · intro hge
    unfold entry_phase
    have : decide (count < eff_cap strategy_mtf max_positions mtf_max_pos) = false := by
      simp [not_lt.mpr hge]
    rw [this]
    exact open_loop_closed_gate _ _ _

/-- C1 amended witness at the counterexample input. -/
theorem entry_loop_respects_global_cap_witness :
    (0 : ℤ) ≤ 3 ∧
    (entry_phase true 3 1 0 [true, true] ≤ 3 ∧
      (eff_cap true 3 1 ≤ 0 → entry_phase true 3 1 0 [true, true] = 0)) :=
  ⟨by decide, entry_loop_respects_global_cap true 3 1 0 [true, true] (by decide)⟩

/-- The drawdown guard keeps the sticky flag once set. -/
theorem guard_step_true (hard_dd : ℚ) (peak : Option ℚ) (equity : ℚ) :
    guard_step hard_dd peak equity true = true := by
  unfold guard_step
  split <;> rfl

/-- Once disabled, the guard stays disabled over any sequence of later
observations. -/
theorem run_guard_true (hard_dd : ℚ) (obs : List (Option ℚ × ℚ)) :
    run_guard hard_dd obs true = true := by
  induction obs with
  | nil => rfl
  | cons o rest ih =>
    unfold run_guard at ih ⊢
    simpa [List.foldl_cons, guard_step_true] using ih

/-- C7 counterexample: hard threshold 10, recorded peak 1000, measured equity
0 (the value the runner substitutes when the balance fetch fails): the
drawdown ratio is 100 percent, at the threshold, yet the guard leaves the
trading-disabled flag false, because the drawdown is only computed when
equity is strictly positive. -/
theorem drawdown_guard_zero_equity_cex :
    guard_step 10 (some 1000) 0 false = false ∧
    (10 : ℚ) ≤ ((1000 : ℚ) - 0) / 1000 * 100 := by
  constructor
  · norm_num [guard_step, dd_pct_calc]
  · norm_num

/-- C7 amended: whenever a positive hard threshold is configured, a positive
peak is recorded and the measured equity is positive, reaching the threshold
drawdown sets the trading-disabled flag; the flag then stays true for every
later observation of the run, and while it is set the live entry gate always
refuses to open a position (exit management does not consult the flag). -/
theorem drawdown_guard_sticky (hard_dd equity pv : ℚ) (disabled : Bool)
    (obs : List (Option ℚ × ℚ))
    (hhd : 0 < hard_dd) (he : 0 < equity) (hp : 0 < pv)
    (hdd : hard_dd ≤ (pv - equity) / pv * 100) :
    guard_step hard_dd (some pv) equity disabled = true ∧
    run_guard hard_dd obs true = true ∧
    (∀ (sig : Option Sig) (maxt : ℤ) (now : ℚ) (stamps : List ℚ) (minr : ℤ)
        (last_open : Option ℚ) (oc mp mmp : ℤ) (smtf : Bool) (eq2 : ℚ),
      entry_allowed sig true maxt now stamps minr last_open oc mp mmp smtf eq2 = false) := by
  refine ⟨?_, run_guard_true _ _, ?_⟩
  · unfold guard_step
    rw [if_pos]
    refine ⟨hhd, ?_⟩
    show hard_dd ≤ (if 0 < hard_dd ∧ 0 < equity ∧ 0 < pv then
      max 0 ((pv - equity) / pv * 100) else 0)
    rw [if_pos ⟨hhd, he, hp⟩]
    exact le_max_of_le_right hdd
  · intro sig maxt now stamps minr last_open oc mp mmp smtf eq2
    simp [entry_allowed]

/-- C7 amended witness: threshold 10, peak 1000, equity 895 (10.5 percent
drawdown), one later recovery observation. -/
theorem drawdown_guard_sticky_witness :
    (0 : ℚ) < 10 ∧ (0 : ℚ) < 895 ∧ (0 : ℚ) < 1000 ∧
      (10 : ℚ) ≤ ((1000 : ℚ) - 895) / 1000 * 100 ∧
    (guard_step 10 (some 1000) 895 false = true ∧
      run_guard 10 [(some 1000, 950)] true = true ∧
      (∀ (sig : Option Sig) (maxt : ℤ) (now : ℚ) (stamps : List ℚ) (minr : ℤ)
          (last_open : Option ℚ) (oc mp mmp : ℤ) (smtf : Bool) (eq2 : ℚ),
        entry_allowed sig true maxt now stamps minr last_open oc mp mmp smtf eq2 = false)) :=
  ⟨by norm_num, by norm_num, by norm_num, by norm_num,
    drawdown_guard_sticky 10 895 1000 false [(some 1000, 950)] (by norm_num) (by norm_num)
      (by norm_num) (by norm_num)⟩

/-- A surviving record returned by the live full close is the unchanged input
record. -/
theorem close_position_live_some (ok : Bool) (pos p' : PositionState)
    (h : (close_position_live ok pos).1 = some p') : p' = pos := by
  unfold close_position_live at h
  split_ifs at h
  simp_all

/-- The live full close either removes the record or keeps it unchanged. -/
theorem close_position_live_fst (ok : Bool) (pos : PositionState) :
    (close_position_live ok pos).1 = none ∨ (close_position_live ok pos).1 = some pos := by
  unfold close_position_live
  split_ifs <;> simp

/-- The backtest partial close changes only qty and notional. -/
theorem close_fraction_bt_fields (fee_rate balance price fraction : ℚ)
    (pos : PositionState) :
    (close_fraction_bt fee_rate balance pos price fraction).2.side = pos.side ∧
    (close_fraction_bt fee_rate balance pos price fraction).2.entry_price = pos.entry_price ∧
    (close_fraction_bt fee_rate balance pos price fraction).2.tp1 = pos.tp1 ∧
    (close_fraction_bt fee_rate balance pos price fraction).2.stop_loss = pos.stop_loss ∧
    (close_fraction_bt fee_rate balance pos price fraction).2.trailing_stop =
      pos.trailing_stop := by
  simp only [close_fraction_bt]
  split_ifs <;> simp

/-- The live partial close changes only qty and notional. -/
theorem close_fraction_live_fields (ok : Bool) (fraction : ℚ) (pos : PositionState) :
    (close_fraction_live ok pos fraction).1.side = pos.side ∧
    (close_fraction_live ok pos fraction).1.entry_price = pos.entry_price ∧
    (close_fraction_live ok pos fraction).1.tp1 = pos.tp1 ∧
    (close_fraction_live ok pos fraction).1.stop_loss = pos.stop_loss ∧
    (close_fraction_live ok pos fraction).1.trailing_stop = pos.trailing_stop := by
  simp only [close_fraction_live]
  split_ifs <;> simp

/-- The long ratchet only raises a stored trail. -/
theorem ratchet_up_mono (t cand : ℚ) :
    ∃ t', ratchet_up (some t) cand = some t' ∧ t ≤ t' := by
  by_cases h : t < cand
  · exact ⟨cand, by simp [ratchet_up, h], le_of_lt h⟩
  · exact ⟨t, by simp [ratchet_up, h], le_refl t⟩

/-- The short ratchet only lowers a stored trail. -/
theorem ratchet_down_mono (t cand : ℚ) :
    ∃ t', ratchet_down (some t) cand = some t' ∧ t' ≤ t := by
  by_cases h : cand < t
  · exact ⟨cand, by simp [ratchet_down, h], le_of_lt h⟩
  · exact ⟨t, by simp [ratchet_down, h], le_refl t⟩

/-- The trailing step changes only the trailing stop, and is the identity on
a record with no trailing stop. -/
theorem trail_ratchet_fields (ts_mult atr price : ℚ) (pos : PositionState) :
    (trail_ratchet ts_mult atr price pos).side = pos.side ∧
    (trail_ratchet ts_mult atr price pos).entry_price = pos.entry_price ∧
    (trail_ratchet ts_mult atr price pos).tp1 = pos.tp1 ∧
    (trail_ratchet ts_mult atr price pos).stop_loss = pos.stop_loss ∧
    (trail_ratchet ts_mult atr price pos).qty = pos.qty ∧
    (pos.trailing_stop = none → trail_ratchet ts_mult atr price pos = pos) := by
  unfold trail_ratchet
  cases h : pos.trailing_stop with
  | none => simp
  | some t => split_ifs <;> simp

/-- The trailing step never moves a stored trail against the position. -/
theorem trail_ratchet_mono (ts_mult atr price t : ℚ) (pos : PositionState)
    (ht : pos.trailing_stop = some t) :
    ∃ t', (trail_ratchet ts_mult atr price pos).trailing_stop = some t' ∧
      (pos.side = Side.long → t ≤ t') ∧ (pos.side = Side.short → t' ≤ t) := by
  cases hs : pos.side with
  | long =>
    by_cases h : t < price - ts_mult * atr
    · exact ⟨price - ts_mult * atr, by simp [trail_ratchet, ht, hs, h],
        fun _ => le_of_lt h, fun hc => Side.noConfusion hc⟩
    · exact ⟨t, by simp [trail_ratchet, ht, hs, h], fun _ => le_refl t,
        fun hc => Side.noConfusion hc⟩
  | short =>
    by_cases h : price + ts_mult * atr < t
    · exact ⟨price + ts_mult * atr, by simp [trail_ratchet, ht, hs, h],
        fun hc => Side.noConfusion hc, fun _ => le_of_lt h⟩
    · exact ⟨t, by simp [trail_ratchet, ht, hs, h], fun hc => Side.noConfusion hc,
        fun _ => le_refl t⟩

/-- tp1_hit never fires once tp1 is null. -/
theorem tp1_hit_none (pos : PositionState) (price : ℚ) (h : pos.tp1 = none) :
    tp1_hit pos price = false := by
  simp [tp1_hit, h]

/-- The backtest TP1 step is the identity once tp1 is null. -/
theorem tp1_step_bt_none (fee_rate ts_mult atr price balance : ℚ) (pos : PositionState)
    (h : pos.tp1 = none) :
    tp1_step_bt fee_rate ts_mult atr price balance pos = (balance, pos) := by
  simp [tp1_step_bt, tp1_hit_none pos price h]

/-- The live TP1 step is the identity once tp1 is null. -/
theorem tp1_step_live_none (ok : Bool) (ts_mult atr price : ℚ) (pos : PositionState)
    (h : pos.tp1 = none) :
    tp1_step_live ok ts_mult atr price pos = (pos, false) := by
  simp [tp1_step_live, tp1_hit_none pos price h]

/-- The record surviving the backtest TP1 step keeps its side, and its
trailing stop only moves favorably relative to a stored trail. -/
theorem tp1_step_bt_mono (fee_rate ts_mult atr price balance t : ℚ) (pos : PositionState)
    (ht : pos.trailing_stop = some t) :
    (tp1_step_bt fee_rate ts_mult atr price balance pos).2.side = pos.side ∧
    ∃ t', (tp1_step_bt fee_rate ts_mult atr price balance pos).2.trailing_stop = some t' ∧
      (pos.side = Side.long → t ≤ t') ∧ (pos.side = Side.short → t' ≤ t) := by
  have hf := close_fraction_bt_fields fee_rate balance price (2⁻¹) pos
  have htr : (close_fraction_bt fee_rate balance pos price (2⁻¹)).2.trailing_stop =
      some t := by rw [hf.2.2.2.2, ht]
  by_cases h : tp1_hit pos price = true
  · cases hs : pos.side with
    | long =>
      obtain ⟨t', ht', hle⟩ := ratchet_up_mono t (price - ts_mult * atr)
      exact ⟨by simp [tp1_step_bt, h, hs, hf.1],
        t', by simp [tp1_step_bt, h, hs, htr, ht'], fun _ => hle,
        fun hc => Side.noConfusion hc⟩
    | short =>
      obtain ⟨t', ht', hle⟩ := ratchet_down_mono t (price + ts_mult * atr)
      exact ⟨by simp [tp1_step_bt, h, hs, hf.1],
        t', by simp [tp1_step_bt, h, hs, htr, ht'], fun hc => Side.noConfusion hc,
        fun _ => hle⟩
  · rw [tp1_step_bt]
    rw [if_neg (by simpa using h)]
    exact ⟨rfl, t, ht, fun _ => le_refl t, fun _ => le_refl t⟩

/-- Live version of the TP1-step monotonicity. -/
theorem tp1_step_live_mono (ok : Bool) (ts_mult atr price t : ℚ) (pos : PositionState)
    (ht : pos.trailing_stop = some t) :
    (tp1_step_live ok ts_mult atr price pos).1.side = pos.side ∧
    ∃ t', (tp1_step_live ok ts_mult atr price pos).1.trailing_stop = some t' ∧
      (pos.side = Side.long → t ≤ t') ∧ (pos.side = Side.short → t' ≤ t) := by
  have hf := close_fraction_live_fields ok (2⁻¹) pos
  have htr : (close_fraction_live ok pos (2⁻¹)).1.trailing_stop = some t := by
    rw [hf.2.2.2.2, ht]
  by_cases h : 0 < pos.qty ∧ tp1_hit pos price = true
  · cases hs : pos.side with
    | long =>
      obtain ⟨t', ht', hle⟩ := ratchet_up_mono t (price - ts_mult * atr)
      exact ⟨by simp [tp1_step_live, h, hs, hf.1],
        t', by simp [tp1_step_live, h, hs, htr, ht'], fun _ => hle,
        fun hc => Side.noConfusion hc⟩
    | short =>
      obtain ⟨t', ht', hle⟩ := ratchet_down_mono t (price + ts_mult * atr)
      exact ⟨by simp [tp1_step_live, h, hs, hf.1],
        t', by simp [tp1_step_live, h, hs, htr, ht'], fun hc => Side.noConfusion hc,
        fun _ => hle⟩
  · rw [tp1_step_live]
    rw [if_neg (by simpa using h)]
    exact ⟨rfl, t, ht, fun _ => le_refl t, fun _ => le_refl t⟩

/-- Structural case analysis of a backtest management tick: the position is
removed, kept verbatim, or equals the trailing-ratchet of the TP1 step. -/
theorem tick_bt_cases (fee_rate ts_mult : ℚ) (bars : ℤ) (smtf : Bool) (i : ℤ)
    (price atr : ℚ) (sig : Option Sig) (balance : ℚ) (pos : PositionState) :
    (tick_bt fee_rate ts_mult bars smtf i price atr sig balance pos).2 = none ∨
    (tick_bt fee_rate ts_mult bars smtf i price atr sig balance pos).2 = some pos ∨
    (tick_bt fee_rate ts_mult bars smtf i price atr sig balance pos).2 =
      some (trail_ratchet ts_mult atr price
        (tp1_step_bt fee_rate ts_mult atr price balance pos).2) := by
  simp only [tick_bt]
  split_ifs <;> simp

/-- Steps 4 and 5 keep or remove the record, never alter it. -/
theorem last_steps_live_cases (bars i : ℤ) (sig : Option Sig) (ok : Bool)
    (p : PositionState) :
    last_steps_live bars i sig ok p = none ∨ last_steps_live bars i sig ok p = some p := by
  unfold last_steps_live
  split_ifs <;> first
    | exact Or.inr rfl
    | rcases close_position_live_fst ok p with h | h <;> rw [h] <;> simp

/-- Step 3 followed by steps 4 and 5 removes the record, keeps it, or applies
exactly the trailing ratchet to it. -/
theorem trail_steps_live_cases (ts_mult : ℚ) (bars i : ℤ) (price atr : ℚ)
    (sig : Option Sig) (ok : Bool) (p : PositionState) :
    trail_steps_live ts_mult bars i price atr sig ok p = none ∨
    trail_steps_live ts_mult bars i price atr sig ok p = some p ∨
    trail_steps_live ts_mult bars i price atr sig ok p =
      some (trail_ratchet ts_mult atr price p) := by
  unfold trail_steps_live
  split_ifs with h1 h2
  · rcases close_position_live_fst ok (trail_ratchet ts_mult atr price p) with h | h <;>
      rw [h] <;> simp
  · rcases last_steps_live_cases bars i sig ok (trail_ratchet ts_mult atr price p) with
      h | h <;> rw [h] <;> simp
  · rcases last_steps_live_cases bars i sig ok p with h | h <;> rw [h] <;> simp

/-- Structural case analysis of a live management tick: the position is
removed, kept verbatim, or equals the TP1 step optionally followed by the
trailing ratchet. -/
theorem tick_live_cases (ts_mult : ℚ) (bars : ℤ) (oks : List Bool) (i : ℤ)
    (price atr : ℚ) (sig : Option Sig) (pos : PositionState) :
    tick_live ts_mult bars oks i price atr sig pos = none ∨
    tick_live ts_mult bars oks i price atr sig pos = some pos ∨
    tick_live ts_mult bars oks i price atr sig pos =
      some (tp1_step_live (oks.headD true) ts_mult atr price pos).1 ∨
    tick_live ts_mult bars oks i price atr sig pos =
      some (trail_ratchet ts_mult atr price
        (tp1_step_live (oks.headD true) ts_mult atr price pos).1) := by
  unfold tick_live
  split_ifs with h1 h2
  · exact Or.inr (Or.inl rfl)
  · rcases close_position_live_fst (oks.headD true) pos with h | h <;> rw [h] <;> simp
  · rcases trail_steps_live_cases ts_mult bars i price atr sig
        ((if (tp1_step_live (oks.headD true) ts_mult atr price pos).2 then oks.tail
          else oks).headD true)
        (tp1_step_live (oks.headD true) ts_mult atr price pos).1 with h | h | h <;>
      rw [h] <;> simp

/-- A successful live full close always removes the record. -/

theorem close_position_live_ok (pos : PositionState) :
    (close_position_live true pos).1 = none := by
  unfold close_position_live
  split_ifs <;> simp_all

/-- A concrete long position used for the concrete evaluations: qty 2 opened
at 100 with stop 80 and first target 105. -/
def c4pre : PositionState :=
  { symbol := "X", entry_price := 100, qty := 2, notional := 200,
    side := Side.long, mode := "futures", open_time := some 0,
    stop_loss := some 80, tp1 := some 105, tp2 := none, peak_price := some 100,
    trailing_stop := none, pyramid_level := 0 }

/-- The record c4pre becomes after a TP1 tick whose partial-close order
failed: quantity intact, but breakeven stop, trailing stop and cleared tp1. -/
def c4post : PositionState :=
  { symbol := "X", entry_price := 100, qty := 2, notional := 200,
    side := Side.long, mode := "futures", open_time := some 0,
    stop_loss := some 100, tp1 := none, tp2 := none, peak_price := some 100,
    trailing_stop := some 105, pyramid_level := 0 }

/-- C4 counterexample: live tick, long position c4pre with tp1 = 105, price
110 crosses TP1, broker order fails (oks = [false]): the quantity stays 2 but
the position record is mutated anyway - stop_loss moves to the entry 100, a
trailing stop 105 is initialized and tp1 is cleared - so the pre-call and
post-call records differ and the partial exit is never re-attempted. -/
theorem tp1_close_failure_mutates_state_cex :
    tick_live 5 0 [false] 0 110 1 none c4pre = some c4post ∧ c4post ≠ c4pre := by
  constructor
  · norm_num [tick_live, trail_steps_live, last_steps_live, tp1_step_live,
      close_fraction_live, tp1_hit, sl_hit, trail_ratchet, trail_crossed, ratchet_up,
      reverse_hit, age_bars, truncQ, close_position_live, c4pre, c4post]
    rintro (h | ⟨h1, h2⟩) <;> simp_all
  · simp [c4pre, c4post]

/-- C4 amended: when a live close order fails, the full-close routine leaves
the record entirely unchanged and fires the order-error alert, while the
partial-close routine leaves the record unchanged but fires no alert; the
TP1 caller then still moves stop_loss to the entry (breakeven), applies the
trailing-stop initialization or tightening for its side and clears tp1, so a
failed TP1 partial exit is not re-attempted on the next tick.  Stated for
both sides: the cross hypothesis is the source's own TP1 trigger test. -/
theorem close_failure_state_preservation (ts_mult atr price fraction : ℚ)
    (pos : PositionState) (hq : 0 < pos.qty) (htp1 : tp1_hit pos price = true) :
    close_position_live false pos = (some pos, true) ∧
    close_fraction_live false pos fraction = (pos, false) ∧
    (tp1_step_live false ts_mult atr price pos).1 =
      { pos with
          stop_loss := some pos.entry_price,
          trailing_stop :=
            if pos.side = Side.long then
              ratchet_up pos.trailing_stop (price - ts_mult * atr)
            else ratchet_down pos.trailing_stop (price + ts_mult * atr),
          tp1 := none } := by
  have hcf : close_fraction_live false pos (2⁻¹) = (pos, false) := by
    simp [close_fraction_live]
  refine ⟨?_, ?_, ?_⟩
  · unfold close_position_live
    rw [if_neg (not_le.mpr hq)]
    rfl
  · simp [close_fraction_live]
  · cases hs : pos.side with
    | long => simp [tp1_step_live, hq, htp1, hcf, hs]
    | short => simp [tp1_step_live, hq, htp1, hcf, hs]

/-- A concrete short position mirroring c4pre: qty 2 sold at 100 with stop
120 and first target 95. -/
def c4preS : PositionState :=
  { symbol := "X", entry_price := 100, qty := 2, notional := 200,
    side := Side.short, mode := "futures", open_time := some 0,
    stop_loss := some 120, tp1 := some 95, tp2 := none, peak_price := some 100,
    trailing_stop := none, pyramid_level := 0 }

/-- C4 amended witness, on both sides: the long position c4pre with TP1
crossed at price 110, and the short position c4preS with TP1 crossed at
price 90. -/
theorem close_failure_state_preservation_witness :
    ((0 : ℚ) < c4pre.qty ∧ tp1_hit c4pre 110 = true ∧
      (close_position_live false c4pre = (some c4pre, true) ∧
        close_fraction_live false c4pre (1 / 2) = (c4pre, false) ∧
        (tp1_step_live false 5 1 110 c4pre).1 =
          { c4pre with
              stop_loss := some c4pre.entry_price,
              trailing_stop :=
                if c4pre.side = Side.long then
                  ratchet_up c4pre.trailing_stop (110 - 5 * 1)
                else ratchet_down c4pre.trailing_stop (110 + 5 * 1),
              tp1 := none })) ∧
    ((0 : ℚ) < c4preS.qty ∧ tp1_hit c4preS 90 = true ∧
      (close_position_live false c4preS = (some c4preS, true) ∧
        close_fraction_live false c4preS (1 / 2) = (c4preS, false) ∧
        (tp1_step_live false 5 1 90 c4preS).1 =
          { c4preS with
              stop_loss := some c4preS.entry_price,
              trailing_stop :=
                if c4preS.side = Side.long then
                  ratchet_up c4preS.trailing_stop (90 - 5 * 1)
                else ratchet_down c4preS.trailing_stop (90 + 5 * 1),
              tp1 := none })) :=
  ⟨⟨by norm_num [c4pre], by norm_num [tp1_hit, c4pre],
    close_failure_state_preservation 5 1 110 (1 / 2) c4pre (by norm_num [c4pre])
      (by norm_num [tp1_hit, c4pre])⟩,
   ⟨by norm_num [c4preS],
    by
      norm_num [tp1_hit, c4preS]
      decide,
    close_failure_state_preservation 5 1 90 (1 / 2) c4preS (by norm_num [c4preS])
      (by
        norm_num [tp1_hit, c4preS]
        decide)⟩⟩

/-- C5: TP1 fires at most once per position lifetime: once tp1 is null, any
management tick (backtest or live) either fully closes the position or
returns a record whose tp1 is still null, whose quantity and stop loss are
unchanged, and which gains no trailing stop it did not already have - the 50
percent partial close, breakeven stop move and trailing-stop initialization
can never trigger again, wherever the price moves. -/
theorem tp1_fires_at_most_once (fee_rate ts_mult : ℚ) (bars : ℤ) (smtf : Bool)
    (oks : List Bool) (i : ℤ) (price atr balance : ℚ) (sig : Option Sig)
    (pos : PositionState) (h : pos.tp1 = none) :
    (∀ p', (tick_bt fee_rate ts_mult bars smtf i price atr sig balance pos).2 = some p' →
      p'.tp1 = none ∧ p'.qty = pos.qty ∧ p'.stop_loss = pos.stop_loss ∧
        (pos.trailing_stop = none → p'.trailing_stop = none)) ∧
    (∀ p', tick_live ts_mult bars oks i price atr sig pos = some p' →
      p'.tp1 = none ∧ p'.qty = pos.qty ∧ p'.stop_loss = pos.stop_loss ∧
        (pos.trailing_stop = none → p'.trailing_stop = none)) := by
  have hbt := tp1_step_bt_none fee_rate ts_mult atr price balance pos h
  have hlv := tp1_step_live_none (oks.headD true) ts_mult atr price pos h
  have htr := trail_ratchet_fields ts_mult atr price pos
  constructor
  · intro p' hp'
    rcases tick_bt_cases fee_rate ts_mult bars smtf i price atr sig balance pos with
      hc | hc | hc
    · rw [hc] at hp'
      exact Option.noConfusion hp'
    · rw [hc] at hp'
      obtain rfl := (Option.some.inj hp').symm
      exact ⟨h, rfl, rfl, fun hh => hh⟩
    · rw [hc] at hp'
      have hpe : p' = trail_ratchet ts_mult atr price
          (tp1_step_bt fee_rate ts_mult atr price balance pos).2 :=
        (Option.some.inj hp').symm
      rw [hbt] at hpe
      subst hpe
      refine ⟨?_, htr.2.2.2.2.1, htr.2.2.2.1, fun hh => ?_⟩
      · rw [htr.2.2.1]
        exact h
      · rw [htr.2.2.2.2.2 hh]
        exact hh
  · intro p' hp'
    rcases tick_live_cases ts_mult bars oks i price atr sig pos with hc | hc | hc | hc
    · rw [hc] at hp'
      exact Option.noConfusion hp'
    · rw [hc] at hp'
      obtain rfl := (Option.some.inj hp').symm
      exact ⟨h, rfl, rfl, fun hh => hh⟩
    · rw [hlv] at hc
      rw [hc] at hp'
      obtain rfl := (Option.some.inj hp').symm
      exact ⟨h, rfl, rfl, fun hh => hh⟩
    · rw [hlv] at hc
      rw [hc] at hp'
      have hpe : p' = trail_ratchet ts_mult atr price ((pos, false) : PositionState × Bool).1 :=
        (Option.some.inj hp').symm
      subst hpe
      refine ⟨?_, htr.2.2.2.2.1, htr.2.2.2.1, fun hh => ?_⟩
      · rw [htr.2.2.1]
        exact h
      · rw [htr.2.2.2.2.2 hh]
        exact hh

/-- A concrete long position with tp1 already cleared and no trailing stop,
held through a quiet tick. -/
def c5pos : PositionState :=
  { symbol := "Y", entry_price := 90, qty := 1, notional := 90,
    side := Side.long, mode := "futures", open_time := some 0,
    stop_loss := none, tp1 := none, tp2 := none, peak_price := some 90,
    trailing_stop := none, pyramid_level := 0 }

/-- C5 witness: with tp1 null, a quiet tick returns the record with tp1
still null in backtest and live. -/
theorem tp1_fires_at_most_once_witness :
    c5pos.tp1 = none ∧
    (c5pos.tp1 = none ∧ c5pos.qty = c5pos.qty ∧ c5pos.stop_loss = c5pos.stop_loss ∧
      (c5pos.trailing_stop = none → c5pos.trailing_stop = none)) ∧
    (c5pos.tp1 = none ∧ c5pos.qty = c5pos.qty ∧ c5pos.stop_loss = c5pos.stop_loss ∧
      (c5pos.trailing_stop = none → c5pos.trailing_stop = none)) :=
  ⟨rfl,
    (tp1_fires_at_most_once 0 1 0 false [] 0 100 1 0 none c5pos rfl).1 c5pos
      (by
        norm_num [tick_bt, tp1_step_bt, tp1_hit, sl_hit, trail_ratchet, trail_crossed,
          reverse_hit, age_bars, truncQ, close_position_bt, close_fraction_bt, c5pos]
        rw [if_neg (by simp)]),
    (tp1_fires_at_most_once 0 1 0 false [] 0 100 1 0 none c5pos rfl).2 c5pos
      (by
        norm_num [tick_live, trail_steps_live, last_steps_live, tp1_step_live, tp1_hit,
          sl_hit, trail_ratchet, trail_crossed, reverse_hit, age_bars, truncQ,
          close_position_live, close_fraction_live, c5pos]
        rintro (hx | ⟨hx1, hx2⟩) <;> simp_all)⟩

/-- C6: trailing-stop ratchet: whenever an open position with a stored
trailing stop survives a management tick (backtest or live), the stored
value never moved against the position - it is non-decreasing for a long
and non-increasing for a short, in both the TP1 re-tightening and the
per-tick ratchet. -/
theorem trailing_stop_ratchet (fee_rate ts_mult : ℚ) (bars : ℤ) (smtf : Bool)
    (oks : List Bool) (i : ℤ) (price atr balance : ℚ) (sig : Option Sig)
    (pos : PositionState) (t : ℚ) (ht : pos.trailing_stop = some t) :
    (∀ p', (tick_bt fee_rate ts_mult bars smtf i price atr sig balance pos).2 = some p' →
      ∃ t', p'.trailing_stop = some t' ∧ (pos.side = Side.long → t ≤ t') ∧
        (pos.side = Side.short → t' ≤ t)) ∧
    (∀ p', tick_live ts_mult bars oks i price atr sig pos = some p' →
      ∃ t', p'.trailing_stop = some t' ∧ (pos.side = Side.long → t ≤ t') ∧
        (pos.side = Side.short → t' ≤ t)) := by
  obtain ⟨hside_bt, t1, ht1, hl1, hs1⟩ :=
    tp1_step_bt_mono fee_rate ts_mult atr price balance t pos ht
  obtain ⟨t2, ht2, hl2, hs2⟩ := trail_ratchet_mono ts_mult atr price t1 _ ht1
  obtain ⟨hside_lv, u1, hu1, hlu1, hsu1⟩ :=
    tp1_step_live_mono (oks.headD true) ts_mult atr price t pos ht
  obtain ⟨u2, hu2, hlu2, hsu2⟩ := trail_ratchet_mono ts_mult atr price u1 _ hu1
  constructor
  · intro p' hp'
    rcases tick_bt_cases fee_rate ts_mult bars smtf i price atr sig balance pos with
      hc | hc | hc
    · rw [hc] at hp'
      exact Option.noConfusion hp'
    · rw [hc] at hp'
      obtain rfl := (Option.some.inj hp').symm
      exact ⟨t, ht, fun _ => le_refl t, fun _ => le_refl t⟩
    · rw [hc] at hp'
      obtain rfl := (Option.some.inj hp').symm
      exact ⟨t2, ht2, fun hl => le_trans (hl1 hl) (hl2 (hside_bt.trans hl)),
        fun hs => le_trans (hs2 (hside_bt.trans hs)) (hs1 hs)⟩
  · intro p' hp'
    rcases tick_live_cases ts_mult bars oks i price atr sig pos with hc | hc | hc | hc
    · rw [hc] at hp'
      exact Option.noConfusion hp'
    · rw [hc] at hp'
      obtain rfl := (Option.some.inj hp').symm
      exact ⟨t, ht, fun _ => le_refl t, fun _ => le_refl t⟩
    · rw [hc] at hp'
      obtain rfl := (Option.some.inj hp').symm
      exact ⟨u1, hu1, hlu1, hsu1⟩
    · rw [hc] at hp'
      obtain rfl := (Option.some.inj hp').symm
      exact ⟨u2, hu2, fun hl => le_trans (hlu1 hl) (hlu2 (hside_lv.trans hl)),
        fun hs => le_trans (hsu2 (hside_lv.trans hs)) (hsu1 hs)⟩

/-- A concrete long position carrying a trailing stop at 95 that a tick at
price 100 with ATR 1 ratchets up to 99. -/
def c6pos : PositionState :=
  { symbol := "Z", entry_price := 90, qty := 1, notional := 90,
    side := Side.long, mode := "futures", open_time := some 0,
    stop_loss := none, tp1 := none, tp2 := none, peak_price := some 90,
    trailing_stop := some 95, pyramid_level := 0 }

/-- The record c6pos becomes after that tick. -/
def c6out : PositionState :=
  { symbol := "Z", entry_price := 90, qty := 1, notional := 90,
    side := Side.long, mode := "futures", open_time := some 0,
    stop_loss := none, tp1 := none, tp2 := none, peak_price := some 90,
    trailing_stop := some 99, pyramid_level := 0 }

/-- C6 witness: a backtest tick at price 100 with ATR 1 and multiplier 1
raises the stored trail 95 of the long position c6pos. -/
theorem trailing_stop_ratchet_witness :
    c6pos.trailing_stop = some 95 ∧
    (∃ t', c6out.trailing_stop = some t' ∧ (c6pos.side = Side.long → 95 ≤ t') ∧
      (c6pos.side = Side.short → t' ≤ 95)) :=
  ⟨rfl,
    (trailing_stop_ratchet 0 1 0 false [] 0 100 1 0 none c6pos 95 rfl).1 c6out
      (by
        norm_num [tick_bt, tp1_step_bt, tp1_hit, sl_hit, trail_ratchet, trail_crossed,
          reverse_hit, age_bars, truncQ, close_position_bt, close_fraction_bt, c6pos, c6out]
        rw [if_neg (by simp)])⟩

/-- C8: under quiet conditions (no stop, no TP1, no trailing stop, no
signal), the backtest tick closes the position by time-stop exactly when a
positive MTF_MAX_BARS_IN_POSITION is configured, the configured strategy is
the MTF breakout strategy, and the bar age reaches the limit; the live tick
applies the same age test whenever the limit is positive, with no strategy
condition at all. -/
theorem time_stop_condition (fee_rate ts_mult : ℚ) (bars : ℤ) (smtf : Bool) (i : ℤ)
    (price atr balance : ℚ) (pos : PositionState)
    (hsl : pos.stop_loss = none) (htp : pos.tp1 = none) (htr : pos.trailing_stop = none)
    (hpr : 0 < price) (ha : 0 < atr) :
    ((tick_bt fee_rate ts_mult bars smtf i price atr none balance pos).2 = none ↔
      (0 < bars ∧ smtf = true ∧ bars ≤ age_bars i pos)) ∧
    (tick_live ts_mult bars [] i price atr none pos = none ↔
      (0 < bars ∧ bars ≤ age_bars i pos)) := by
  have h1 : sl_hit pos price = false := by simp [sl_hit, hsl]
  have h2 := tp1_step_bt_none fee_rate ts_mult atr price balance pos htp
  have h2' := tp1_step_live_none true ts_mult atr price pos htp
  have h3 : trail_ratchet ts_mult atr price pos = pos :=
    (trail_ratchet_fields ts_mult atr price pos).2.2.2.2.2 htr
  have h4 : trail_crossed pos price = false := by simp [trail_crossed, htr]
  have h5 : reverse_hit pos (none : Option Sig) = false := by simp [reverse_hit]
  have hcl : (close_position_live true pos).1 = none := close_position_live_ok pos
  constructor
  · by_cases hC : 0 < bars ∧ smtf = true ∧ bars ≤ age_bars i pos
    · simp [tick_bt, ha.not_le, h1, h2, h3, h4, h5, hC]
    · simp [tick_bt, ha.not_le, h1, h2, h3, h4, h5, hC]
  · by_cases hC : 0 < bars ∧ bars ≤ age_bars i pos
    · simp [tick_live, trail_steps_live, last_steps_live, hpr.not_le, ha.not_le, h1, h2',
        h3, h4, h5, htr, hcl, hC]
    · simp [tick_live, trail_steps_live, last_steps_live, hpr.not_le, ha.not_le, h1, h2',
        h3, h4, h5, htr, hcl, hC]

/-- A concrete quiet long position opened at bar 0, evaluated at bar 96 with
a 96-bar time-stop configured. -/
def c8pos : PositionState :=
  { symbol := "W", entry_price := 100, qty := 1, notional := 100,
    side := Side.long, mode := "futures", open_time := some 0,
    stop_loss := none, tp1 := none, tp2 := none, peak_price := some 100,
    trailing_stop := none, pyramid_level := 0 }

/-- C8 counterexample: with MTF_MAX_BARS_IN_POSITION = 96, a position of age
96 and a configured strategy that is NOT the MTF strategy, the backtest tick
holds the position (its time-stop is gated on the strategy name) while the
live tick closes it by time-stop (no strategy gate): the time-stop is not
MTF-only in live processing. -/
theorem time_stop_strategy_check_cex :
    (tick_bt 0 5 96 false 96 100 1 none 0 c8pos).2 = some c8pos ∧
    tick_live 5 96 [] 96 100 1 none c8pos = none := by
  constructor
  · norm_num [tick_bt, tp1_step_bt, tp1_hit, sl_hit, trail_ratchet, trail_crossed,
      reverse_hit, age_bars, truncQ, close_position_bt, close_fraction_bt, c8pos]
    rw [if_neg (by simp)]
  · norm_num [tick_live, trail_steps_live, last_steps_live, tp1_step_live, tp1_hit,
      sl_hit, trail_ratchet, trail_crossed, reverse_hit, age_bars, truncQ,
      close_position_live, close_fraction_live, c8pos]

/-- C8 amended witness at the counterexample configuration. -/
theorem time_stop_condition_witness :
    c8pos.stop_loss = none ∧ c8pos.tp1 = none ∧ c8pos.trailing_stop = none ∧
      (0 : ℚ) < 100 ∧ (0 : ℚ) < 1 ∧
    (((tick_bt 0 5 96 false 96 100 1 none 0 c8pos).2 = none ↔
        ((0 : ℤ) < 96 ∧ false = true ∧ (96 : ℤ) ≤ age_bars 96 c8pos)) ∧
      (tick_live 5 96 [] 96 100 1 none c8pos = none ↔
        ((0 : ℤ) < 96 ∧ (96 : ℤ) ≤ age_bars 96 c8pos))) :=
  ⟨rfl, rfl, rfl, by norm_num, by norm_num,
    time_stop_condition 0 5 96 false 96 100 1 0 c8pos rfl rfl rfl (by norm_num)
      (by norm_num)⟩

/-- A list with a maximum is non-empty. -/
theorem ne_nil_of_max (l : List ℚ) (x : ℚ) (h : l.max? = some x) : l ≠ [] := by
  intro he
  rw [he] at h
  exact Option.noConfusion h

/-- A list with a minimum is non-empty. -/
theorem ne_nil_of_min (l : List ℚ) (x : ℚ) (h : l.min? = some x) : l ≠ [] := by
  intro he
  rw [he] at h
  exact Option.noConfusion h

/-- A list without a maximum is empty. -/
theorem nil_of_max_none (l : List ℚ) (h : l.max? = none) : l = [] := by
  cases l with
  | nil => rfl
  | cons a as => rw [List.max?_cons'] at h; exact Option.noConfusion h

/-- A list without a minimum is empty. -/
theorem nil_of_min_none (l : List ℚ) (h : l.min? = none) : l = [] := by
  cases l with
  | nil => rfl
  | cons a as => rw [List.min?_cons'] at h; exact Option.noConfusion h

/-- The final stage emits buy exactly under its own three filters plus the
bull regime, trigger and long RSI band, and sell dually. -/
theorem mtf_final_eq (cfg : MTFConfig) (df : List Bar) :
    (mtf_final cfg df = some Sig.buy ↔
      (¬ (0 < vol_ma cfg df ∧
          (lastBar df).volume < vol_ma cfg df * cfg.breakout_volume_mult) ∧
        ¬ ((lastBar df).close ≤ 0 ∨ (lastBar df).atr ≤ 0) ∧
        ¬ ((lastBar df).atr / (lastBar df).close < cfg.ltf_atr_min_pct) ∧
        sawtooth_reject cfg df = false ∧
        regime df = Regime.bull ∧ long_trigger cfg df < (lastBar df).close ∧
        rsi_long_min_eff cfg df ≤ (lastBar df).rsi ∧
        (lastBar df).rsi ≤ cfg.mtf_rsi_long_max)) ∧
    (mtf_final cfg df = some Sig.sell ↔
      (¬ (0 < vol_ma cfg df ∧
          (lastBar df).volume < vol_ma cfg df * cfg.breakout_volume_mult) ∧
        ¬ ((lastBar df).close ≤ 0 ∨ (lastBar df).atr ≤ 0) ∧
        ¬ ((lastBar df).atr / (lastBar df).close < cfg.ltf_atr_min_pct) ∧
        sawtooth_reject cfg df = false ∧
        regime df = Regime.bear ∧ (lastBar df).close < short_trigger cfg df ∧
        cfg.mtf_rsi_short_min ≤ (lastBar df).rsi ∧
        (lastBar df).rsi ≤ rsi_short_max_eff cfg df)) := by
  unfold mtf_final
  split_ifs with g1 g2 g3 g4 g5 g6
  · simp_all
  · simp_all
  · simp_all
  · simp_all
  · simp_all
  · simp_all
  · simp_all

/-- C9: the SignalEvaluator emits Buy exactly when every filter step passes,
the HTF regime is bull (strictly EMA20 > EMA50 > EMA200), the close strictly
exceeds long_trigger and the LTF RSI lies within the effective long band; it
emits Sell exactly when the filters pass, the regime is bear, the close is
strictly below short_trigger and the RSI lies within the effective short
band; in every other case the result is None. -/
theorem mtf_signal_conditions (cfg : MTFConfig) (df : List Bar) :
    (mtf_signal cfg df = some Sig.buy ↔
      (mtf_filters_pass cfg df ∧ regime df = Regime.bull ∧
        long_trigger cfg df < (lastBar df).close ∧
        rsi_long_min_eff cfg df ≤ (lastBar df).rsi ∧
        (lastBar df).rsi ≤ cfg.mtf_rsi_long_max)) ∧
    (mtf_signal cfg df = some Sig.sell ↔
      (mtf_filters_pass cfg df ∧ regime df = Regime.bear ∧
        (lastBar df).close < short_trigger cfg df ∧
        cfg.mtf_rsi_short_min ≤ (lastBar df).rsi ∧
        (lastBar df).rsi ≤ rsi_short_max_eff cfg df)) := by
  unfold mtf_signal
  split_ifs with h1 h2 h3 h4 h5 h6 h7 h8 h9
  · constructor <;> constructor <;> intro hh
    · exact hh.elim
    · exact absurd h1 hh.1.1
    · exact hh.elim
    · exact absurd h1 hh.1.1
  · constructor <;> constructor <;> intro hh
    · exact hh.elim
    · exact Regime.noConfusion (h2.symm.trans hh.2.1)
    · exact hh.elim
    · exact Regime.noConfusion (h2.symm.trans hh.2.1)
  · constructor <;> constructor <;> intro hh
    · exact hh.elim
    · exact absurd h3 hh.1.2.1
    · exact hh.elim
    · exact absurd h3 hh.1.2.1
  · constructor <;> constructor <;> intro hh
    · exact hh.elim
    · exact absurd h4 hh.1.2.2.1
    · exact hh.elim
    · exact absurd h4 hh.1.2.2.1
  · constructor <;> constructor <;> intro hh
    · exact hh.elim
    · exact absurd h5 hh.1.2.2.2.1
    · exact hh.elim
    · exact absurd h5 hh.1.2.2.2.1
  · constructor <;> constructor <;> intro hh
    · exact hh.elim
    · exact absurd h6 hh.1.2.2.2.2.1
    · exact hh.elim
    · exact absurd h6 hh.1.2.2.2.2.1
  · constructor <;> constructor <;> intro hh
    · exact hh.elim
    · exact absurd h7 hh.1.2.2.2.2.2.1
    · exact hh.elim
    · exact absurd h7 hh.1.2.2.2.2.2.1
  · constructor <;> constructor <;> intro hh
    · exact hh.elim
    · exact absurd h8 hh.1.2.2.2.2.2.2.1
    · exact hh.elim
    · exact absurd h8 hh.1.2.2.2.2.2.2.1
  · constructor <;> constructor <;> intro hh
    · exact hh.elim
    · exact absurd h9 hh.1.2.2.2.2.2.2.2.1
    · exact hh.elim
    · exact absurd h9 hh.1.2.2.2.2.2.2.2.1
  · cases hmax : ((recentBars cfg df).map Bar.high).max? with
    | none =>
      have hrec : recentBars cfg df = [] :=
        List.map_eq_nil_iff.mp (nil_of_max_none _ hmax)
      constructor <;> constructor <;> intro hh
      · exact Option.noConfusion hh
      · exact absurd hrec hh.1.2.2.2.2.2.2.2.2.1
      · exact Option.noConfusion hh
      · exact absurd hrec hh.1.2.2.2.2.2.2.2.2.1
    | some rh =>
      cases hmin : ((recentBars cfg df).map Bar.low).min? with
      | none =>
        have hrec : recentBars cfg df = [] :=
          List.map_eq_nil_iff.mp (nil_of_min_none _ hmin)
        constructor <;> constructor <;> intro hh
        · exact Option.noConfusion hh
        · exact absurd hrec hh.1.2.2.2.2.2.2.2.2.1
        · exact Option.noConfusion hh
        · exact absurd hrec hh.1.2.2.2.2.2.2.2.2.1
      | some rl =>
        have hne : recentBars cfg df ≠ [] := by
          intro he
          rw [he] at hmax
          exact Option.noConfusion hmax
        have hpass : mtf_filters_pass cfg df ↔
            (¬ (0 < vol_ma cfg df ∧
                (lastBar df).volume < vol_ma cfg df * cfg.breakout_volume_mult) ∧
              ¬ ((lastBar df).close ≤ 0 ∨ (lastBar df).atr ≤ 0) ∧
              ¬ ((lastBar df).atr / (lastBar df).close < cfg.ltf_atr_min_pct) ∧
              sawtooth_reject cfg df = false) := by
          unfold mtf_filters_pass
          simp [h1, h3, h4, h5, h6, h7, h8, h9, hne]
        dsimp only
        rw [(mtf_final_eq cfg df).1, (mtf_final_eq cfg df).2, hpass]
        constructor <;> constructor <;> intro hh
        · exact ⟨⟨hh.1, hh.2.1, hh.2.2.1, hh.2.2.2.1⟩, hh.2.2.2.2⟩
        · exact ⟨hh.1.1, hh.1.2.1, hh.1.2.2.1, hh.1.2.2.2, hh.2⟩
        · exact ⟨⟨hh.1, hh.2.1, hh.2.2.1, hh.2.2.2.1⟩, hh.2.2.2.2⟩
        · exact ⟨hh.1.1, hh.1.2.1, hh.1.2.2.1, hh.1.2.2.2, hh.2⟩
